import Mathlib

/-!
Verification of the sticker label generator (`instr.py`).

The Python source is shallowly embedded: pandas dataframes become a header
list plus rows modelled as functions from column name to an optional cell
value (`none` models a missing / NaN cell), floats become rationals, and the
external services (QR encoder, logo processing) become oracle functions held
in a configuration record.
-/

/-- Model of Python's `str.split(sep)` for a single-character separator,
working on the character list. `"".split(sep)` yields `[""]`. -/
def splitChars (sep : Char) : List Char → List (List Char)
  | [] => [[]]
  | c :: rest =>
    let r := splitChars sep rest
    if c = sep then [] :: r
    else
      match r with
      | h :: t => (c :: h) :: t
      | [] => [[c]]

/-- Python `s.split("_")`-style splitting, single-character separator. -/
def pySplit (s : String) (sep : Char) : List String :=
  (splitChars sep s.data).map String.mk

/-- Boolean contiguous-sublist test, structural on the haystack. -/
def listInfixOf (needle : List Char) : List Char → Bool
  | [] => needle.isEmpty
  | h :: t => needle.isPrefixOf (h :: t) || listInfixOf needle t

/-- Python substring containment `needle in hay`. -/
def inStr (needle hay : String) : Bool :=
  listInfixOf needle.data hay.data

/-- `normalize_column_name`: remove all non-alphanumeric characters and
lower-case the remainder (the regex `[^a-zA-Z0-9]` is ASCII-only, as are
Lean's `Char.isAlphanum`/`Char.toLower` on the surviving characters). -/
def normalize_column_name (col_name : String) : String :=
  String.mk ((col_name.data.filter fun c => c.isAlphanum).map Char.toLower)

/-- Python dict assignment `m[k] = v`: replace the value in place if the key
exists (keeping its insertion position), otherwise append at the end. -/
def upsert : List (String × String) → String → String → List (String × String)
  | [], k, v => [(k, v)]
  | (k', v') :: rest, k, v =>
    if k' = k then (k', v) :: rest else (k', v') :: upsert rest k v

/-- Association-list lookup in insertion order (Python `m[k]` / `k in m`). -/
def lookupA : List (String × String) → String → Option String
  | [], _ => none
  | (k, v) :: rest, key => if k = key then some v else lookupA rest key

/-- The dict comprehension
`{normalize_column_name(col): col for col in df.columns}`:
later columns with the same normalized key overwrite earlier ones. -/
def normMap (cols : List String) : List (String × String) :=
  cols.foldl (fun m c => upsert m (normalize_column_name c) c) []

/-- First loop of `find_column`: exact normalized match, candidate variants
tried in priority order. -/
def exact_phase (nmap : List (String × String)) (normNames : List String) :
    Option String :=
  normNames.findSome? fun n => lookupA nmap n

/-- Second loop of `find_column`: substring match either way round, outer
loop over candidate variants, inner loop over the dict in insertion order. -/
def substr_phase (nmap : List (String × String)) (normNames : List String) :
    Option String :=
  normNames.findSome? fun n =>
    (nmap.find? fun p => inStr n p.1 || inStr p.1 n).map Prod.snd

/-- Third loop of `find_column`: line-location keyword scan over the dict. -/
def lineloc_phase (nmap : List (String × String)) : Option String :=
  (nmap.find? fun p =>
    (inStr "line" p.1 && inStr "location" p.1) || inStr "lineloc" p.1).map
    Prod.snd

/-- `find_column(df, possible_names)`: exact match, then substring match,
then the line-location keyword fallback, else `None`. -/
def find_column (cols : List String) (possible_names : List String) :
    Option String :=
  let nmap := normMap cols
  let normNames := possible_names.map normalize_column_name
  match exact_phase nmap normNames with
  | some c => some c
  | none =>
    match substr_phase nmap normNames with
    | some c => some c
    | none => lineloc_phase nmap

/-- `parse_line_location`: `none` models `None`/NaN input; an empty string is
falsy in Python, so both collapse to four empty slots. Otherwise split on
`_`, truncate to 4 parts and right-pad with empty strings. -/
def parse_line_location (location_string : Option String) : List String :=
  match location_string with
  | none => ["", "", "", ""]
  | some s =>
    if s = "" then ["", "", "", ""]
    else
      let parts := pySplit s '_'
      let result := parts.take 4 ++ List.replicate (4 - parts.length) ""
      result.take 4

/-- Claim C1: `parse_line_location` is total and always returns exactly 4
string slots: it splits on underscore, pads with empty strings on the right
when fewer than 4 parts exist and silently discards parts beyond the 4th;
`"A1_B2_C3_D4"`, `"A1_B2"`, empty/absent input and `"A1_B2_C3_D4_E5"` give
the four listed results. -/
theorem C1_location_splitter :
    (∀ s : Option String, (parse_line_location s).length = 4) ∧
    parse_line_location (some "A1_B2_C3_D4") = ["A1", "B2", "C3", "D4"] ∧
    parse_line_location (some "A1_B2") = ["A1", "B2", "", ""] ∧
    parse_line_location (some "") = ["", "", "", ""] ∧
    parse_line_location none = ["", "", "", ""] ∧
    parse_line_location (some "A1_B2_C3_D4_E5") = ["A1", "B2", "C3", "D4"] := by
  refine ⟨?_, by decide, by decide, by decide, rfl, by decide⟩
  intro s
  match s with
  | none => rfl
  | some s =>
    by_cases h : s = ""
    · simp [parse_line_location, h]
    · simp only [parse_line_location, h, if_neg]
      simp [List.length_take, List.length_append, List.length_replicate]
      omega

/-- The `'ASSLY'` candidate-variant list of `column_mappings`. -/
def ASSLY_names : List String :=
  ["assly", "ASSY NAME", "Assy Name", "assy name", "assyname",
   "assy_name", "Assy_name", "Assembly", "Assembly Name", "ASSEMBLY",
   "Assembly_Name"]

/-- The `'part_no'` candidate-variant list of `column_mappings`. -/
def part_no_names : List String :=
  ["PARTNO", "PARTNO.", "Part No", "Part Number", "PartNo",
   "partnumber", "part no", "partnum", "PART", "part", "Product Code",
   "Item Number", "Item ID", "Item No", "item", "Item"]

/-- The `'description'` candidate-variant list of `column_mappings`. -/
def description_names : List String :=
  ["DESCRIPTION", "Description", "Desc", "Part Description",
   "ItemDescription", "item description", "Product Description",
   "Item Description", "NAME", "Item Name", "Product Name"]

/-- The `'Part_per_veh'` candidate-variant list of `column_mappings`. -/
def Part_per_veh_names : List String :=
  ["QYT", "QTY / VEH", "Qty/Veh", "Qty Bin", "Quantity per Bin",
   "qty bin", "qtybin", "quantity bin", "BIN QTY", "BINQTY",
   "QTY_BIN", "QTY_PER_BIN", "Bin Quantity", "BIN"]

/-- The `'container_type'` candidate-variant list of `column_mappings`. -/
def container_type_names : List String :=
  ["CONTAINER", "Container", "container", "BIN TYPE", "Bin Type",
   "bin type", "bintype", "BINTYPE", "Container Type", "container type",
   "CONTAINER_TYPE", "container_type", "ContainerType"]

/-- The `'Type'` candidate-variant list of `column_mappings`. -/
def Type_names : List String :=
  ["TYPE", "type", "Type", "tyPe", "Type name"]

/-- The `'line_location'` candidate-variant list of `column_mappings`. -/
def line_location_names : List String :=
  ["LINE LOCATION", "Line Location", "line location", "LINELOCATION",
   "linelocation", "Line_Location", "line_location", "LINE_LOCATION",
   "LineLocation", "line_loc", "lineloc", "LINELOC", "Line Loc"]

/-- The `'part_status'` candidate-variant list of `column_mappings`. -/
def part_status_names : List String :=
  ["PART STATUS", "Part Status", "part status", "PARTSTATUS",
   "partstatus", "Part_Status", "part_status", "PART_STATUS",
   "PartStatus", "STATUS", "Status", "status", "Item Status",
   "Component Status", "Part State", "State"]

/-- `column_mappings` of `generate_sticker_labels`, in source order. -/
def column_mappings : List (String × List String) :=
  [("ASSLY", ASSLY_names), ("part_no", part_no_names),
   ("description", description_names), ("Part_per_veh", Part_per_veh_names),
   ("container_type", container_type_names), ("Type", Type_names),
   ("line_location", line_location_names), ("part_status", part_status_names)]

/-- `find_column` applied to a canonical field key's variant list. -/
def found_column (headers : List String) (key : String) : Option String :=
  match column_mappings.find? fun p => p.1 = key with
  | some p => find_column headers p.2
  | none => none

/-- `found_columns[key]` of `generate_sticker_labels`: the dict only stores
truthy results (`if found_col:`), so an empty-string column name counts as
not found. -/
def truthy_found (headers : List String) (key : String) : Option String :=
  match found_column headers key with
  | some c => if c = "" then none else some c
  | none => none

/-- `required_columns` of `generate_sticker_labels`. -/
def required_columns : List String := ["ASSLY", "part_no", "description"]

/-- `missing_required` of `generate_sticker_labels`: the required keys, in
order, that are absent from `found_columns`. -/
def missing_required (headers : List String) : List String :=
  required_columns.filter fun k => (truthy_found headers k).isNone

/-- Python `str(cell)` on a pandas cell: a NaN cell stringifies to `"nan"`. -/
def pyStr : Option String → String
  | some s => s
  | none => "nan"

/-- Extraction pattern of the required fields (lines 293-295):
`str(row[col])` with no NaN guard when the column was found, else `"N/A"`. -/
def extract_required (found : Option String) (row : String → Option String) :
    String :=
  match found with
  | some col => pyStr (row col)
  | none => "N/A"

/-- Extraction pattern of the optional fields (lines 296-300):
`str(row[col])` guarded by `pd.notna`, collapsing NaN to `""`. -/
def extract_optional (found : Option String) (row : String → Option String) :
    String :=
  match found with
  | some col => if (row col).isSome then pyStr (row col) else ""
  | none => ""

/-- The per-row field values extracted by `generate_sticker_labels`
(`Type` is a reserved word in Lean, hence the field name `type_val`). -/
structure FieldValues where
  ASSLY : String
  part_no : String
  desc : String
  Part_per_veh : String
  container_type : String
  type_val : String
  line_location_raw : String
  part_status : String

/-- Lines 293-300 of the source: extract all eight field values of one row. -/
def rowFieldValues (found : String → Option String)
    (row : String → Option String) : FieldValues :=
  { ASSLY := extract_required (found "ASSLY") row
    part_no := extract_required (found "part_no") row
    desc := extract_required (found "description") row
    Part_per_veh := extract_optional (found "Part_per_veh") row
    container_type := extract_optional (found "container_type") row
    type_val := extract_optional (found "Type") row
    line_location_raw := extract_optional (found "line_location") row
    part_status := extract_optional (found "part_status") row }

/-- The `qr_data` construction (lines 303-315): mandatory assembly, part
number and description lines, then a labeled line for each non-empty
optional field (Python string truthiness), then the date line. -/
def build_qr_data (fv : FieldValues) (today_date : String) : String :=
  let qr1 := "ASSLY: " ++ fv.ASSLY ++ "\n" ++ "Part No: " ++ fv.part_no ++
    "\n" ++ "Description: " ++ fv.desc ++ "\n"
  let qr2 := if fv.Part_per_veh ≠ "" then
    qr1 ++ "QTY/VEH: " ++ fv.Part_per_veh ++ "\n" else qr1
  let qr3 := if fv.container_type ≠ "" then
    qr2 ++ "Container Type: " ++ fv.container_type ++ "\n" else qr2
  let qr4 := if fv.type_val ≠ "" then
    qr3 ++ "Type: " ++ fv.type_val ++ "\n" else qr3
  let qr5 := if fv.part_status ≠ "" then
    qr4 ++ "Part Status: " ++ fv.part_status ++ "\n" else qr4
  let qr6 := if fv.line_location_raw ≠ "" then
    qr5 ++ "Line Location: " ++ fv.line_location_raw ++ "\n" else qr5
  qr6 ++ "Date: " ++ today_date

/-- Spec-side description of the payload as a list of lines: the three
mandatory labeled lines, each optional labeled line exactly when its value
is non-empty, and the trailing date line. -/
def qrLines (fv : FieldValues) (today_date : String) : List String :=
  ["ASSLY: " ++ fv.ASSLY, "Part No: " ++ fv.part_no,
   "Description: " ++ fv.desc] ++
  (if fv.Part_per_veh ≠ "" then ["QTY/VEH: " ++ fv.Part_per_veh] else []) ++
  (if fv.container_type ≠ "" then
    ["Container Type: " ++ fv.container_type] else []) ++
  (if fv.type_val ≠ "" then ["Type: " ++ fv.type_val] else []) ++
  (if fv.part_status ≠ "" then ["Part Status: " ++ fv.part_status] else []) ++
  (if fv.line_location_raw ≠ "" then
    ["Line Location: " ++ fv.line_location_raw] else []) ++
  ["Date: " ++ today_date]

/-- Spec-side joining of lines with single newline separators. -/
def joinLines : List String → String
  | [] => ""
  | [l] => l
  | l :: ls => l ++ "\n" ++ joinLines ls

/-- A payload line is labeled with a field label when the label (with its
separator) begins the line. -/
def labeledWith (label line : String) : Prop :=
  label.data <+: line.data

theorem strAppend_assoc (a b c : String) : a ++ b ++ c = a ++ (b ++ c) := by
  apply String.ext
  simp [String.data_append]

theorem take_prefix_of_prefix_append {p q t : List Char} (h : p <+: q ++ t) :
    p.take q.length <+: q := by
  obtain ⟨r, hr⟩ := h
  have h1 : p.take q.length <+: p ++ r :=
    ( List.take_prefix q.length p).trans ⟨r, rfl⟩
  have h2 : q <+: p ++ r := ⟨t, hr.symm⟩
  apply List.prefix_of_prefix_length_le h1 h2
  simp [List.length_take]

theorem not_labeled_append (p q x : String)
    (h : ¬ (p.data.take q.data.length <+: q.data)) :
    ¬ labeledWith p (q ++ x) := by
  intro hp
  unfold labeledWith at hp
  rw [String.data_append] at hp
  exact h (take_prefix_of_prefix_append hp)

theorem three_labels_free (q x : String)
    (hq : ¬ (("QTY/VEH: ").data.take q.data.length <+: q.data))
    (ht : ¬ (("Type: ").data.take q.data.length <+: q.data))
    (hp : ¬ (("Part Status: ").data.take q.data.length <+: q.data)) :
    ¬ labeledWith "QTY/VEH: " (q ++ x) ∧ ¬ labeledWith "Type: " (q ++ x) ∧
      ¬ labeledWith "Part Status: " (q ++ x) :=
  ⟨not_labeled_append _ _ _ hq, not_labeled_append _ _ _ ht,
   not_labeled_append _ _ _ hp⟩

set_option maxHeartbeats 2000000 in
/-- Claim C2: the `qr_data` payload is exactly the newline-joining of: the
assembly-name, part-number and description lines (always present, in fixed
order), a labeled line for each of quantity-per-vehicle, container type,
type, part-status and raw line-location exactly when that value is
non-empty, and a trailing generation-date line; in particular, when
quantity-per-vehicle, type and part-status are all empty, no payload line is
labeled with any of those fields. -/
theorem C2_payload_builder (fv : FieldValues) (today_date : String) :
    build_qr_data fv today_date = joinLines (qrLines fv today_date) ∧
    (fv.Part_per_veh = "" → fv.type_val = "" → fv.part_status = "" →
      ∀ l ∈ qrLines fv today_date,
        ¬ labeledWith "QTY/VEH: " l ∧ ¬ labeledWith "Type: " l ∧
          ¬ labeledWith "Part Status: " l) := by
  constructor
  · simp only [build_qr_data, qrLines]
    split_ifs <;>
      · apply String.ext
        simp only [joinLines, String.data_append, List.append_assoc,
          List.cons_append, List.nil_append]
  · intro h1 h3 h4 l hl
    by_cases h2 : fv.container_type = "" <;>
      by_cases h5 : fv.line_location_raw = "" <;>
      simp [qrLines, h1, h2, h3, h4, h5] at hl <;>
      rcases hl with rfl | rfl | rfl | rfl | rfl | rfl <;>
      first
        | exact three_labels_free "ASSLY: " _ (by decide) (by decide)
            (by decide)
        | exact three_labels_free "Part No: " _ (by decide) (by decide)
            (by decide)
        | exact three_labels_free "Description: " _ (by decide) (by decide)
            (by decide)
        | exact three_labels_free "Container Type: " _ (by decide) (by decide)
            (by decide)
        | exact three_labels_free "Line Location: " _ (by decide) (by decide)
            (by decide)
        | exact three_labels_free "Date: " _ (by decide) (by decide)
            (by decide)

/-- ReportLab's `cm` unit (points per centimeter, `72 / 2.54`), as an exact
rational. -/
def cm : ℚ := 72 / (127 / 50)

/-- `CONTENT_BOX_WIDTH = 9.8 * cm`. -/
def CONTENT_BOX_WIDTH : ℚ := (49 / 5) * cm

/-- Content of one table cell: a ReportLab image handle, a `Paragraph`, or a
plain string. -/
inductive CellContent where
  | img (handle : Nat)
  | para (text : String)
  | str (text : String)
deriving DecidableEq

/-- The caller-side state `generate_sticker_labels` runs under: the five
location-row width fractions, the processed logo (`first_box_logo`: `none`
when absent or when processing failed), the external QR encoder
(`generate_qr_code`: `none` models an encoding failure), and today's date
string. -/
structure Config where
  line_loc_header_width : ℚ
  line_loc_box1_width : ℚ
  line_loc_box2_width : ℚ
  line_loc_box3_width : ℚ
  line_loc_box4_width : ℚ
  logo : Option Nat
  qrEncode : String → Option Nat
  today_date : String

/-- The nested left-section table of the bottom row group (QTY/VEH, TYPE and
DATE rows beside the spanned QR region). -/
structure LeftSection where
  rows : List (List CellContent)
  colWidths : List ℚ
  rowHeights : List ℚ
deriving DecidableEq

/-- One sticker's layout: the per-row cell contents and the column widths
handed to each ReportLab `Table` (in points, i.e. fractions of
`CONTENT_BOX_WIDTH`). -/
structure LabelLayout where
  asslyCells : List CellContent
  asslyWidths : List ℚ
  partnoCells : List CellContent
  partnoWidths : List ℚ
  descCells : List CellContent
  descWidths : List ℚ
  leftSection : LeftSection
  bottomWidths : List ℚ
  bottomHeight : ℚ
  qrCell : CellContent
  locationCells : List CellContent
  locationWidths : List ℚ
deriving DecidableEq

/-- The per-row layout work of `generate_sticker_labels` (lines 287-516):
field extraction, QR generation with its text placeholder fallback, the
logo-or-empty first box, and the five tables with their column widths. -/
def makeLabel (cfg : Config) (found : String → Option String)
    (row : String → Option String) : LabelLayout :=
  let fv := rowFieldValues found row
  let location_boxes := parse_line_location (some fv.line_location_raw)
  let qr_data := build_qr_data fv cfg.today_date
  let qr_cell := match cfg.qrEncode qr_data with
    | some i => CellContent.img i
    | none => CellContent.para "QR"
  let first_box_content := match cfg.logo with
    | some i => CellContent.img i
    | none => CellContent.str ""
  let bottom_row_height := (6 / 10 : ℚ) * cm
  { asslyCells := [first_box_content, CellContent.str "ASSLY",
      CellContent.para fv.ASSLY]
    asslyWidths := [CONTENT_BOX_WIDTH * (25 / 100),
      CONTENT_BOX_WIDTH * (15 / 100), CONTENT_BOX_WIDTH * (60 / 100)]
    partnoCells := [CellContent.str "PART NO", CellContent.para fv.part_no,
      CellContent.para fv.part_status]
    partnoWidths := [CONTENT_BOX_WIDTH * (25 / 100),
      CONTENT_BOX_WIDTH * (50 / 100), CONTENT_BOX_WIDTH * (25 / 100)]
    descCells := [CellContent.str "PART DESC", CellContent.para fv.desc]
    descWidths := [CONTENT_BOX_WIDTH * (25 / 100),
      CONTENT_BOX_WIDTH * (75 / 100)]
    leftSection :=
      { rows := [[CellContent.str "QTY/VEH", CellContent.para fv.Part_per_veh,
          CellContent.para fv.container_type],
         [CellContent.str "TYPE", CellContent.para fv.type_val,
          CellContent.str ""],
         [CellContent.str "DATE", CellContent.para cfg.today_date,
          CellContent.str ""]]
        colWidths := [CONTENT_BOX_WIDTH * (60 / 100) * (42 / 100),
          CONTENT_BOX_WIDTH * (60 / 100) * (29 / 100),
          CONTENT_BOX_WIDTH * (60 / 100) * (29 / 100)]
        rowHeights := [bottom_row_height, bottom_row_height,
          bottom_row_height] }
    bottomWidths := [CONTENT_BOX_WIDTH * (60 / 100),
      CONTENT_BOX_WIDTH * (40 / 100)]
    bottomHeight := bottom_row_height * 3
    qrCell := qr_cell
    locationCells := [CellContent.str "LINE LOCATION",
      (if location_boxes.getD 0 "" ≠ "" then
        CellContent.para (location_boxes.getD 0 "") else CellContent.str ""),
      (if location_boxes.getD 1 "" ≠ "" then
        CellContent.para (location_boxes.getD 1 "") else CellContent.str ""),
      (if location_boxes.getD 2 "" ≠ "" then
        CellContent.para (location_boxes.getD 2 "") else CellContent.str ""),
      (if location_boxes.getD 3 "" ≠ "" then
        CellContent.para (location_boxes.getD 3 "") else CellContent.str "")]
    locationWidths := [CONTENT_BOX_WIDTH * cfg.line_loc_header_width,
      CONTENT_BOX_WIDTH * cfg.line_loc_box1_width,
      CONTENT_BOX_WIDTH * cfg.line_loc_box2_width,
      CONTENT_BOX_WIDTH * cfg.line_loc_box3_width,
      CONTENT_BOX_WIDTH * cfg.line_loc_box4_width] }

/-- The location-row column widths expressed again as fractions of the
content width. -/
def locFractions (l : LabelLayout) : List ℚ :=
  l.locationWidths.map fun w => w / CONTENT_BOX_WIDTH

/-- One entry of `all_elements`: a sticker's layout or a `PageBreak`. -/
inductive Element where
  | label (l : LabelLayout)
  | pageBreak

/-- Does an element hold a label layout? -/
def isLabelElem : Element → Bool
  | .label _ => true
  | .pageBreak => false

/-- Is an element a page-break marker? -/
def isPageBreakElem : Element → Bool
  | .label _ => false
  | .pageBreak => true

/-- The row loop of `generate_sticker_labels` (lines 287-523): one label per
row, and a page break after each row whose positional index satisfies
`index < len(df) - 1`. -/
def elemsFrom (cfg : Config) (found : String → Option String) (total : Nat) :
    Nat → List (String → Option String) → List Element
  | _, [] => []
  | i, r :: rest =>
    Element.label (makeLabel cfg found r) ::
      ((if i < total - 1 then [Element.pageBreak] else []) ++
        elemsFrom cfg found total (i + 1) rest)

/-- `all_elements` after the row loop finishes. -/
def allElements (cfg : Config) (found : String → Option String)
    (rows : List (String → Option String)) : List Element :=
  elemsFrom cfg found rows.length 0 rows

/-- Spec-side document shape: the labels in input order with one page-break
marker between consecutive labels. -/
def intersperseBreaks : List LabelLayout → List Element
  | [] => []
  | [l] => [Element.label l]
  | l :: ls => Element.label l :: Element.pageBreak :: intersperseBreaks ls

/-- Outcome of `generate_sticker_labels`'s pure pipeline: the early
missing-required-columns failure (message payload: the missing keys), or
the assembled element sequence. -/
inductive GenResult where
  | missingColumns (missing : List String)
  | ok (elements : List Element)

/-- The pure pipeline of `generate_sticker_labels`: resolve columns, fail
early when a required field is unresolved, otherwise assemble all labels
with page breaks. -/
def generate_sticker_labels (headers : List String)
    (rows : List (String → Option String)) (cfg : Config) : GenResult :=
  if missing_required headers = [] then
    GenResult.ok (allElements cfg (truthy_found headers) rows)
  else
    GenResult.missingColumns (missing_required headers)

/-- `total_width` computed in `main`'s sidebar validation. -/
def total_width (cfg : Config) : ℚ :=
  cfg.line_loc_header_width + cfg.line_loc_box1_width +
    cfg.line_loc_box2_width + cfg.line_loc_box3_width +
    cfg.line_loc_box4_width

/-- `main`'s display-only width validation: `abs(total - 1.0) <= 0.01`. -/
def width_config_valid (cfg : Config) : Prop :=
  |total_width cfg - 1| ≤ 1 / 100

theorem lookupA_upsert (m : List (String × String)) (k v key : String) :
    lookupA (upsert m k v) key = if key = k then some v else lookupA m key := by
  induction m with
  | nil =>
    simp only [upsert, lookupA]
    by_cases h : key = k
    · rw [if_pos h.symm, if_pos h]
    · rw [if_neg (fun hh => h hh.symm), if_neg h]
  | cons p rest ih =>
    obtain ⟨k', v'⟩ := p
    simp only [upsert]
    by_cases hk : k' = k
    · rw [if_pos hk]
      subst hk
      by_cases h : key = k'
      · subst h
        simp [lookupA]
      · have h' : ¬ k' = key := fun hh => h hh.symm
        simp [lookupA, h, h']
    · rw [if_neg hk]
      simp only [lookupA]
      by_cases h2 : k' = key
      · have h3 : ¬ key = k := fun hh => hk (h2.trans hh)
        simp [h2, h3]
      · simp [h2, ih]

theorem find?_append {α : Type} (p : α → Bool) (l₁ l₂ : List α) :
    (l₁ ++ l₂).find? p =
      match l₁.find? p with
      | some x => some x
      | none => l₂.find? p := by
  induction l₁ with
  | nil => simp [List.find?]
  | cons a l ih =>
    by_cases h : p a <;> simp [List.find?, h, ih]

theorem lookupA_normMap_aux (cols : List String) :
    ∀ (m : List (String × String)) (k : String),
      lookupA (cols.foldl (fun m c => upsert m (normalize_column_name c) c) m)
          k =
        match cols.reverse.find?
            (fun c => normalize_column_name c == k) with
        | some c => some c
        | none => lookupA m k := by
  induction cols with
  | nil => intro m k; simp
  | cons c cs ih =>
    intro m k
    have step : (c :: cs).foldl
        (fun m c => upsert m (normalize_column_name c) c) m =
        cs.foldl (fun m c => upsert m (normalize_column_name c) c)
          (upsert m (normalize_column_name c) c) := rfl
    rw [step, ih, List.reverse_cons, find?_append]
    cases hcs : cs.reverse.find? (fun c => normalize_column_name c == k) with
    | some x => simp
    | none =>
      rw [lookupA_upsert]
      simp only [List.find?]
      by_cases h : normalize_column_name c = k
      · have hbt : (normalize_column_name c == k) = true := by simp [h]
        rw [if_pos h.symm]
        simp [hbt]
      · have hb : (normalize_column_name c == k) = false := by simp [h]
        have h' : ¬ k = normalize_column_name c := fun hh => h hh.symm
        simp [hb, h']

/-- The normalized-header dict binds each normalized key to the LAST header
that normalizes to it: looking it up equals searching the reversed header
list. -/
theorem lookupA_normMap (cols : List String) (k : String) :
    lookupA (normMap cols) k =
      cols.reverse.find? (fun c => normalize_column_name c == k) := by
  rw [normMap, lookupA_normMap_aux]
  cases cols.reverse.find? (fun c => normalize_column_name c == k) <;>
    simp [lookupA]

theorem lookupA_normMap_isSome (cols : List String) (k : String) :
    (lookupA (normMap cols) k).isSome ↔
      ∃ c ∈ cols, normalize_column_name c = k := by
  rw [lookupA_normMap]
  rw [List.find?_isSome]
  constructor
  · rintro ⟨c, hc, hp⟩
    exact ⟨c, List.mem_reverse.mp hc, by simpa using hp⟩
  · rintro ⟨c, hc, hp⟩
    exact ⟨c, List.mem_reverse.mpr hc, by simpa using hp⟩

/-- Claim C3: whenever some candidate variant's normalized form exactly
equals some normalized actual header, `find_column` binds via the
exact-match phase — the exact phase succeeds and its answer is the result,
so an exact match always wins over substring and domain-keyword matching,
whatever else is present. -/
theorem C3_exact_match_wins (cols names : List String)
    (h : ∃ n ∈ names, ∃ c ∈ cols,
      normalize_column_name n = normalize_column_name c) :
    (exact_phase (normMap cols) (names.map normalize_column_name)).isSome ∧
      find_column cols names =
        exact_phase (normMap cols) (names.map normalize_column_name) := by
  obtain ⟨n, hn, c, hc, hnc⟩ := h
  have hsome : (lookupA (normMap cols) (normalize_column_name n)).isSome := by
    rw [lookupA_normMap_isSome]
    exact ⟨c, hc, hnc.symm⟩
  have hex : (exact_phase (normMap cols)
      (names.map normalize_column_name)).isSome := by
    rw [Option.isSome_iff_ne_none]
    intro hnone
    rw [exact_phase, List.findSome?_eq_none_iff] at hnone
    have := hnone (normalize_column_name n) (List.mem_map_of_mem _ hn)
    rw [this] at hsome
    simp at hsome
  refine ⟨hex, ?_⟩
  obtain ⟨v, hv⟩ := Option.isSome_iff_exists.mp hex
  rw [find_column, hv]

/-- Witness for C3 at a concrete header list and variant list. -/
theorem C3_exact_match_wins_witness :
    (∃ n ∈ ["Part No", "Part Number"], ∃ c ∈ ["Part Number"],
      normalize_column_name n = normalize_column_name c) ∧
    (exact_phase (normMap ["Part Number"])
      (["Part No", "Part Number"].map normalize_column_name)).isSome ∧
      find_column ["Part Number"] ["Part No", "Part Number"] =
        exact_phase (normMap ["Part Number"])
          (["Part No", "Part Number"].map normalize_column_name) :=
  ⟨by decide, C3_exact_match_wins _ _ (by decide)⟩

/-- Counterexample to claim C4: resolving `part_status` (a field other than
line-location) over a header list whose only column is `LINE LOCATION`
fails both the exact and the substring phases, yet `find_column` binds the
line-location header instead of leaving the field unresolved — the
domain-specific fallback runs for every field. -/
theorem C4_counterexample :
    find_column ["LINE LOCATION"] part_status_names = some "LINE LOCATION" ∧
    exact_phase (normMap ["LINE LOCATION"])
      (part_status_names.map normalize_column_name) = none ∧
    substr_phase (normMap ["LINE LOCATION"])
      (part_status_names.map normalize_column_name) = none := by
  refine ⟨by decide, by decide, by decide⟩

/-- Claim C4 as amended: the line-location keyword fallback is not restricted
to the line-location field — for EVERY candidate-variant list, when both the
exact and the substring phases fail, `find_column` returns the fallback's
scan of the headers for `line`+`location` (or `lineloc`) tokens, and only
when that also fails is the field left unresolved. -/
theorem C4_fallback_for_every_field (cols names : List String)
    (h1 : exact_phase (normMap cols) (names.map normalize_column_name) = none)
    (h2 : substr_phase (normMap cols) (names.map normalize_column_name) = none) :
    find_column cols names = lineloc_phase (normMap cols) := by
  simp [find_column, h1, h2]

/-- Witness for the amended C4 at the `part_status` counterexample input. -/
theorem C4_fallback_for_every_field_witness :
    exact_phase (normMap ["LINE LOCATION"])
        (part_status_names.map normalize_column_name) = none ∧
    substr_phase (normMap ["LINE LOCATION"])
        (part_status_names.map normalize_column_name) = none ∧
    find_column ["LINE LOCATION"] part_status_names =
      lineloc_phase (normMap ["LINE LOCATION"]) :=
  ⟨by decide, by decide,
   C4_fallback_for_every_field _ _ (by decide) (by decide)⟩

/-- Counterexample to claim C10: the headers `"Part No"` and `"PART_NO"`
normalize identically, but `find_column` binds the SECOND (last) occurrence,
not the first. -/
theorem C10_counterexample :
    find_column ["Part No", "PART_NO"] ["partno"] = some "PART_NO" ∧
    normalize_column_name "Part No" = normalize_column_name "PART_NO" ∧
    "PART_NO" ≠ "Part No" := by
  refine ⟨by decide, by decide, by decide⟩

/-- Claim C10 as amended: when several columns share a normalized form,
resolution is still deterministic but binds the LAST occurrence — the
normalized-header dict maps each key to the last header normalizing to it,
so a single-variant exact match returns the first match of the REVERSED
header list. -/
theorem C10_resolves_to_last_occurrence (cols : List String) (n : String)
    (h : ∃ c ∈ cols, normalize_column_name c = normalize_column_name n) :
    find_column cols [n] =
      cols.reverse.find?
        (fun c => normalize_column_name c == normalize_column_name n) ∧
      (find_column cols [n]).isSome := by
  have hsome := (lookupA_normMap_isSome cols (normalize_column_name n)).mpr h
  obtain ⟨v, hv⟩ := Option.isSome_iff_exists.mp hsome
  have hex : exact_phase (normMap cols) [normalize_column_name n]
      = some v := by
    simp [exact_phase, hv]
  have hfc : find_column cols [n] = some v := by
    simp [find_column, hex]
  refine ⟨?_, by simp [hfc]⟩
  rw [hfc, ← hv, lookupA_normMap]

/-- Witness for the amended C10 at the duplicate-header input. -/
theorem C10_resolves_to_last_occurrence_witness :
    (∃ c ∈ ["Part No", "PART_NO"],
      normalize_column_name c = normalize_column_name "partno") ∧
    find_column ["Part No", "PART_NO"] ["partno"] =
      ["Part No", "PART_NO"].reverse.find?
        (fun c => normalize_column_name c == normalize_column_name "partno") ∧
      (find_column ["Part No", "PART_NO"] ["partno"]).isSome :=
  ⟨by decide, C10_resolves_to_last_occurrence _ _ (by decide)⟩

/-- Claim C5: when any required field is unresolved, `generate_sticker_labels`
fails immediately with exactly the list of missing required fields and never
produces a document. -/
theorem C5_missing_required_fails (headers : List String)
    (rows : List (String → Option String)) (cfg : Config)
    (h : missing_required headers ≠ []) :
    generate_sticker_labels headers rows cfg =
      GenResult.missingColumns (missing_required headers) ∧
    ∀ es, generate_sticker_labels headers rows cfg ≠ GenResult.ok es := by
  constructor
  · simp [generate_sticker_labels, h]
  · intro es
    simp [generate_sticker_labels, h]

/-- A concrete `Config` used by the witnesses: all fractions `1/5`, no logo,
an always-failing QR encoder, and a fixed date. -/
def cfg0 : Config :=
  { line_loc_header_width := 1 / 5
    line_loc_box1_width := 1 / 5
    line_loc_box2_width := 1 / 5
    line_loc_box3_width := 1 / 5
    line_loc_box4_width := 1 / 5
    logo := none
    qrEncode := fun _ => none
    today_date := "07-10-2026" }

/-- A concrete all-NaN row used by the witnesses. -/
def row0 : String → Option String := fun _ => none

/-- A concrete empty column binding used by the witnesses. -/
def found0 : String → Option String := fun _ => none

/-- Witness for C5 on a dataset with no headers at all. -/
theorem C5_missing_required_fails_witness :
    missing_required ([] : List String) ≠ [] ∧
    generate_sticker_labels [] [] cfg0 =
      GenResult.missingColumns (missing_required []) :=
  ⟨by decide, (C5_missing_required_fails [] [] cfg0 (by decide)).1⟩

theorem elemsFrom_eq_intersperse (cfg : Config)
    (found : String → Option String) :
    ∀ (rows : List (String → Option String)) (i total : Nat),
      total = i + rows.length →
      elemsFrom cfg found total i rows =
        intersperseBreaks (rows.map (makeLabel cfg found)) := by
  intro rows
  induction rows with
  | nil => intro i total _; rfl
  | cons r rest ih =>
    intro i total h
    cases rest with
    | nil =>
      simp only [List.length_cons, List.length_nil] at h
      have hnot : ¬ i < total - 1 := by omega
      simp [elemsFrom, intersperseBreaks, hnot]
    | cons r2 rs =>
      simp only [List.length_cons] at h
      have hlt : i < total - 1 := by omega
      have hih := ih (i + 1) total (by simp only [List.length_cons]; omega)
      have hstep : elemsFrom cfg found total i (r :: r2 :: rs) =
          Element.label (makeLabel cfg found r) ::
            ((if i < total - 1 then [Element.pageBreak] else []) ++
              elemsFrom cfg found total (i + 1) (r2 :: rs)) := rfl
      rw [hstep, if_pos hlt, hih]
      rfl

theorem allElements_shape (cfg : Config) (found : String → Option String)
    (rows : List (String → Option String)) :
    allElements cfg found rows =
      intersperseBreaks (rows.map (makeLabel cfg found)) :=
  elemsFrom_eq_intersperse cfg found rows 0 rows.length (by simp)

theorem countP_label_intersperse (ls : List LabelLayout) :
    (intersperseBreaks ls).countP isLabelElem = ls.length := by
  induction ls with
  | nil => rfl
  | cons l ls ih =>
    cases ls with
    | nil => rfl
    | cons l2 rs =>
      simp only [intersperseBreaks, List.countP_cons, List.length_cons, ih,
        isLabelElem]
      rfl

theorem countP_break_intersperse (ls : List LabelLayout) :
    (intersperseBreaks ls).countP isPageBreakElem = ls.length - 1 := by
  induction ls with
  | nil => rfl
  | cons l ls ih =>
    cases ls with
    | nil => rfl
    | cons l2 rs =>
      have hstep : intersperseBreaks (l :: l2 :: rs) =
          Element.label l :: Element.pageBreak ::
            intersperseBreaks (l2 :: rs) := rfl
      rw [hstep]
      simp [List.countP_cons, isPageBreakElem, ih]

theorem countLabels_allElements (cfg : Config)
    (found : String → Option String)
    (rows : List (String → Option String)) :
    (allElements cfg found rows).countP isLabelElem = rows.length := by
  rw [allElements_shape, countP_label_intersperse, List.length_map]

theorem countBreaks_allElements (cfg : Config)
    (found : String → Option String)
    (rows : List (String → Option String)) :
    (allElements cfg found rows).countP isPageBreakElem = rows.length - 1 := by
  rw [allElements_shape, countP_break_intersperse, List.length_map]

/-- Claim C6: for a non-empty dataset the assembled element sequence is the
labels of the records in input order with a page break after every label
except the last — exactly N labels and N-1 page-break markers. -/
theorem C6_pagination (cfg : Config) (found : String → Option String)
    (rows : List (String → Option String)) (h : rows ≠ []) :
    allElements cfg found rows =
      intersperseBreaks (rows.map (makeLabel cfg found)) ∧
    (allElements cfg found rows).countP isLabelElem = rows.length ∧
    (allElements cfg found rows).countP isPageBreakElem =
      rows.length - 1 :=
  ⟨allElements_shape cfg found rows, countLabels_allElements cfg found rows,
   countBreaks_allElements cfg found rows⟩

/-- Witness for C6 on a two-record dataset. -/
theorem C6_pagination_witness :
    (([row0, row0] : List (String → Option String)) ≠ []) ∧
    (allElements cfg0 found0 [row0, row0] =
      intersperseBreaks ([row0, row0].map (makeLabel cfg0 found0)) ∧
    (allElements cfg0 found0 [row0, row0]).countP isLabelElem = 2 ∧
    (allElements cfg0 found0 [row0, row0]).countP isPageBreakElem = 1) := by
  have h := C6_pagination cfg0 found0 [row0, row0] (by simp)
  exact ⟨by simp, h.1, h.2.1, h.2.2⟩

/-- Claim C7: when the QR encoder fails the layout substitutes the plain
text placeholder `"QR"` in the same spanned region (the bottom-section
widths are unchanged); when the logo is absent the first box is an empty
cell and the identity row's width allocation is unchanged; and regardless of
any asset failure every record still yields its label in the batch. -/
theorem C7_asset_fallbacks (cfg : Config) (found : String → Option String)
    (row : String → Option String) :
    (cfg.qrEncode (build_qr_data (rowFieldValues found row) cfg.today_date) =
        none →
      (makeLabel cfg found row).qrCell = CellContent.para "QR" ∧
      (makeLabel cfg found row).bottomWidths =
        [CONTENT_BOX_WIDTH * (60 / 100), CONTENT_BOX_WIDTH * (40 / 100)]) ∧
    (cfg.logo = none →
      (makeLabel cfg found row).asslyCells =
        [CellContent.str "", CellContent.str "ASSLY",
         CellContent.para (rowFieldValues found row).ASSLY] ∧
      (makeLabel cfg found row).asslyWidths =
        [CONTENT_BOX_WIDTH * (25 / 100), CONTENT_BOX_WIDTH * (15 / 100),
         CONTENT_BOX_WIDTH * (60 / 100)]) ∧
    ∀ rows : List (String → Option String),
      (allElements cfg found rows).countP isLabelElem = rows.length := by
  refine ⟨fun h => ⟨?_, ?_⟩, fun h => ⟨?_, ?_⟩,
    fun rows => countLabels_allElements cfg found rows⟩ <;>
    simp [makeLabel, h]

/-- Witness for C7 with a failing QR encoder and an absent logo. -/
theorem C7_asset_fallbacks_witness :
    cfg0.qrEncode (build_qr_data (rowFieldValues found0 row0)
      cfg0.today_date) = none ∧
    (makeLabel cfg0 found0 row0).qrCell = CellContent.para "QR" ∧
    cfg0.logo = none ∧
    (makeLabel cfg0 found0 row0).asslyCells =
      [CellContent.str "", CellContent.str "ASSLY",
       CellContent.para (rowFieldValues found0 row0).ASSLY] ∧
    (allElements cfg0 found0 [row0]).countP isLabelElem = 1 := by
  have h := C7_asset_fallbacks cfg0 found0 row0
  exact ⟨rfl, (h.1 rfl).1, rfl, (h.2.1 rfl).1, h.2.2 [row0]⟩

/-- Concrete headers resolving all three required fields by exact match. -/
def hdrs3 : List String := ["ASSLY", "PARTNO", "DESCRIPTION"]

/-- A width configuration whose fractions sum to 2 (invalid by more than the
0.01 tolerance). -/
def cfgBad : Config :=
  { line_loc_header_width := 1 / 2
    line_loc_box1_width := 1 / 2
    line_loc_box2_width := 1 / 2
    line_loc_box3_width := 1 / 4
    line_loc_box4_width := 1 / 4
    logo := none
    qrEncode := fun _ => none
    today_date := "07-10-2026" }

/-- Counterexample to claim C8: a width configuration summing to 2 is
neither rejected nor renormalized — `generate_sticker_labels` still returns
a document and the produced label's location-row fractions sum to 2, far
outside 1.0 ± 0.01 (`main` only displays a warning and proceeds). -/
theorem C8_counterexample :
    ¬ width_config_valid cfgBad ∧
    generate_sticker_labels hdrs3 [row0] cfgBad =
      GenResult.ok
        [Element.label (makeLabel cfgBad (truthy_found hdrs3) row0)] ∧
    (locFractions (makeLabel cfgBad (truthy_found hdrs3) row0)).sum = 2 := by
  have hmr : missing_required hdrs3 = [] := by decide
  refine ⟨?_, ?_, ?_⟩
  · norm_num [width_config_valid, total_width, cfgBad]
  · simp [generate_sticker_labels, hmr, allElements, elemsFrom]
  · have hw : (makeLabel cfgBad (truthy_found hdrs3) row0).locationWidths =
        [CONTENT_BOX_WIDTH * (1 / 2), CONTENT_BOX_WIDTH * (1 / 2),
         CONTENT_BOX_WIDTH * (1 / 2), CONTENT_BOX_WIDTH * (1 / 4),
         CONTENT_BOX_WIDTH * (1 / 4)] := rfl
    have hcw : CONTENT_BOX_WIDTH ≠ 0 := by norm_num [CONTENT_BOX_WIDTH, cm]
    have hx : ∀ x : ℚ, CONTENT_BOX_WIDTH * x / CONTENT_BOX_WIDTH = x := by
      intro x
      field_simp
    simp [locFractions, hw, hx]
    norm_num

/-- Claim C8 as amended: the pipeline neither rejects nor renormalizes the
caller-supplied width fractions — every produced label's location row uses
them unchanged, so its fractions of the content width sum to exactly the
supplied total (which `main` merely warns about when it is off by more than
0.01 before generating anyway). -/
theorem C8_widths_used_unchanged (cfg : Config)
    (found : String → Option String) (row : String → Option String) :
    (makeLabel cfg found row).locationWidths =
      [CONTENT_BOX_WIDTH * cfg.line_loc_header_width,
       CONTENT_BOX_WIDTH * cfg.line_loc_box1_width,
       CONTENT_BOX_WIDTH * cfg.line_loc_box2_width,
       CONTENT_BOX_WIDTH * cfg.line_loc_box3_width,
       CONTENT_BOX_WIDTH * cfg.line_loc_box4_width] ∧
    (locFractions (makeLabel cfg found row)).sum = total_width cfg := by
  have hcw : CONTENT_BOX_WIDTH ≠ 0 := by norm_num [CONTENT_BOX_WIDTH, cm]
  have hx : ∀ x : ℚ, CONTENT_BOX_WIDTH * x / CONTENT_BOX_WIDTH = x := by
    intro x
    field_simp
  refine ⟨rfl, ?_⟩
  have hw : (makeLabel cfg found row).locationWidths =
      [CONTENT_BOX_WIDTH * cfg.line_loc_header_width,
       CONTENT_BOX_WIDTH * cfg.line_loc_box1_width,
       CONTENT_BOX_WIDTH * cfg.line_loc_box2_width,
       CONTENT_BOX_WIDTH * cfg.line_loc_box3_width,
       CONTENT_BOX_WIDTH * cfg.line_loc_box4_width] := rfl
  simp [locFractions, hw, hx, total_width]
  ring

/-- Claim C9 as amended: a missing/NaN cell collapses to the empty string
only for the OPTIONAL fields; for the required fields `str(...)` is applied
without a NaN guard, so a NaN cell surfaces as the text `"nan"` (an absent
column still gives `"N/A"` for required fields and `""` for optional
ones, and present cells pass through unchanged). -/
theorem C9_null_extraction (col : String) (row : String → Option String) :
    (row col = none →
      extract_required (some col) row = "nan" ∧
      extract_optional (some col) row = "") ∧
    (∀ s, row col = some s →
      extract_required (some col) row = s ∧
      extract_optional (some col) row = s) ∧
    extract_required none row = "N/A" ∧
    extract_optional none row = "" := by
  refine ⟨fun h => ⟨?_, ?_⟩, fun s h => ⟨?_, ?_⟩, rfl, rfl⟩ <;>
    simp [extract_required, extract_optional, pyStr, h]

/-- Witness for the amended C9 at a concrete NaN cell. -/
theorem C9_null_extraction_witness :
    row0 "ASSLY" = none ∧
    extract_required (some "ASSLY") row0 = "nan" ∧
    extract_optional (some "ASSLY") row0 = "" := by
  have h := C9_null_extraction "ASSLY" row0
  exact ⟨rfl, (h.1 rfl).1, (h.1 rfl).2⟩

/-- Counterexample to claim C9: with the required ASSLY column resolved and
its cell NaN, the extracted field value is the null marker `"nan"`, and it
surfaces both in the payload's first line and in the label's identity row. -/
theorem C9_counterexample :
    (rowFieldValues (truthy_found hdrs3) row0).ASSLY = "nan" ∧
    (qrLines (rowFieldValues (truthy_found hdrs3) row0)
      "07-10-2026").head? = some "ASSLY: nan" ∧
    (makeLabel cfg0 (truthy_found hdrs3) row0).asslyCells =
      [CellContent.str "", CellContent.str "ASSLY",
       CellContent.para "nan"] := by
  refine ⟨by decide, by decide, by decide⟩

/-- A concrete record with the three optional fields of the omission law all
empty. -/
def fv0 : FieldValues :=
  { ASSLY := "Engine Block"
    part_no := "EB-001"
    desc := "Main part"
    Part_per_veh := ""
    container_type := ""
    type_val := ""
    line_location_raw := ""
    part_status := "" }

/-- Witness for C2 at a concrete record whose quantity, type and part-status
fields are empty. -/
theorem C2_payload_builder_witness :
    (fv0.Part_per_veh = "" ∧ fv0.type_val = "" ∧ fv0.part_status = "") ∧
    build_qr_data fv0 "07-10-2026" = joinLines (qrLines fv0 "07-10-2026") ∧
    ∀ l ∈ qrLines fv0 "07-10-2026",
      ¬ labeledWith "QTY/VEH: " l ∧ ¬ labeledWith "Type: " l ∧
        ¬ labeledWith "Part Status: " l := by
  have h := C2_payload_builder fv0 "07-10-2026"
  exact ⟨⟨rfl, rfl, rfl⟩, h.1, h.2 rfl rfl rfl⟩
